import Mathlib

/-!
# Verification of the MECHBench evaluation and memoization engine

Shallow embedding of `src/sob/problems.py` (the second, authoritative copy of
the module, lines 673-1460): the `OptiProblem` evaluation pipeline
(`__call__`, `generate_input_deck`, `run_simulation`, `load_output_data_frame`,
the metric calculation methods and the `handle_single` dispatch table), the
`output_data` property setter, the per-family constructors (`StarBox`,
`ThreePointBending`, `CrashTube`) and `extract_mass_from_file`.

Numbers are modelled as rationals (`ℚ`); the concrete constants of the claims
(`60`, `120`, `0.7`, `4.25952`, ...) are exactly representable.  The external
solver and the pandas artifacts are collaborators at the interface boundary:
an `Env` record supplies, per deck id, the scalar each artifact lookup yields
(the mass read from the starter `.out` file, the tracked-node displacement
maximum and the force peak/mean of the time-series table), exactly as the
Python code consumes them.  Filesystem and solver side effects are logged
explicitly (`dirs`, `runs`) so that "no directory was created" and
"`run_radioss` was invoked n times" are provable statements.
-/

deriving instance DecidableEq for Except

/-- Universal design-variable search space `self.search_space = (-5.0, 5.0)`. -/
def searchSpace : ℚ × ℚ := (-5, 5)

/-- `OptiProblem.linear_maping_variable`: affine map from the search space to a
physical `problem_space_range`. -/
def linearMapingVariable (x : ℚ) (r : ℚ × ℚ) : ℚ :=
  let scale := (r.2 - r.1) / (searchSpace.2 - searchSpace.1)
  r.1 + (x - searchSpace.1) * scale

/-- The mapping loop of `OptiProblem.generate_input_deck`: component `i` of the
design vector is mapped with `variable_ranges[i]`.  (For the families using the
base `generate_input_deck`, `variable_ranges` has exactly `dimension` entries,
so pairing the two lists is the Python indexing loop.) -/
def femSpaceVariableArray (v : List ℚ) (ranges : List (ℚ × ℚ)) : List ℚ :=
  (v.zip ranges).map fun p => linearMapingVariable p.1 p.2

/-- `_PRINCIPAL_OUTPUTS` (module constants of the authoritative copy). -/
def principalOutputs : List String :=
  ["mass", "absorbed_energy", "intrusion", "mean_impact_force", "max_impact_force"]

/-- `_COMPOSITE_OUTPUTS`. -/
def compositeOutputs : List String :=
  ["specific_energy_absorbed", "usage_ratio", "load_uniformity"]

/-- `_PROBLEM_SPECIFIC_OUTPUTS`. -/
def problemSpecificOutputs : List String :=
  ["penalized_sea", "penalized_mass"]

/-- Python's `str.strip()` on the character list: drop whitespace from both
ends. -/
def pyStrip (s : String) : String :=
  ⟨((s.data.dropWhile Char.isWhitespace).reverse.dropWhile
      Char.isWhitespace).reverse⟩

/-- Python's `str.lower()`: lower-case each character. -/
def pyLower (s : String) : String :=
  ⟨s.data.map Char.toLower⟩

/-- The membership test of the `output_data` setter:
`elem.strip().lower() in _COMPOSITE_OUTPUTS or ... in _PRINCIPAL_OUTPUTS or
... in _PROBLEM_SPECIFIC_OUTPUTS`. -/
def recognizedOutput (s : String) : Bool :=
  let y := pyLower (pyStrip s)
  compositeOutputs.contains y || principalOutputs.contains y ||
    problemSpecificOutputs.contains y

/-- `list.pop(idx)` as used in the setter: an `IndexError` is caught and merely
printed, so an out-of-range index leaves the list unchanged. -/
def popSwallowingIndexError (l : List String) (i : Nat) : List String :=
  if i < l.length then l.eraseIdx i else l

/-- List branch of the `output_data` setter: collect the (ascending) indices of
the unrecognized names, then `pop` them one by one from the same list (the
source pops by original index, so removals shift later indices). -/
def setOutputDataList (l : List String) : List String :=
  (((l.enum.filter fun e => !recognizedOutput e.2).map fun e => e.1)).foldl
    popSwallowingIndexError l

/-- `output_data` as stored on the instance: a single name or a list. -/
inductive OutputData where
  | single (s : String)
  | many (l : List String)
deriving DecidableEq

/-- Errors raised by the embedded code (`ValueError` / `KeyError` sites,
labelled by the spec's taxonomy). -/
inductive EvalErr where
  /-- `problem_id` setter: value `<= 0` (explicit-identity misuse). -/
  | invalidIdentity
  /-- `_validate_variable_array`: size mismatch with the problem dimension. -/
  | sizeMismatch
  /-- `_validate_variable_array`: a component outside `[-5, 5]`. -/
  | outOfRangeInput
deriving DecidableEq

/-- Errors raised during problem construction. -/
inductive InitErr where
  /-- subclass `__init__`: a requested output is in `forbidden_output_data`. -/
  | forbiddenMetric
  /-- `dimension` setter: `new_dimension <= 0`. -/
  | nonPositiveDimension
  /-- `ThreePointBending.__init__`: `variable_ranges_map[dimension]` KeyError
  (the dict only has keys `1..40`). -/
  | unsupportedDimension
  /-- `output_data` setter on an unrecognized single string. -/
  | badOutput
deriving DecidableEq

/-- The immutable data of a constructed problem instance. -/
structure Prob where
  dimension : Nat
  ranges : List (ℚ × ℚ)
  seq : Bool
  outputData : OutputData
deriving DecidableEq

/-- External side-effect log: deck directories created (`os.makedirs`) and
`run_radioss` invocations `(runStarter, deck id)`, in order. -/
structure FsState where
  dirs : List Int
  runs : List (Bool × Int)
deriving DecidableEq

/-- Mutable per-instance state threaded through an evaluation:
`_problem_id`, `sim_status`, the loaded `output_data_frame` (recorded as the
deck id it was read from), and the side-effect log. -/
structure St where
  pid : Int
  status : Nat
  df : Option Int
  fs : FsState
deriving DecidableEq

/-- Fresh instance state (constructor leaves `sim_status = 0`, no data frame
loaded, nothing on disk). -/
def initSt (pid : Int) : St :=
  { pid := pid, status := 0, df := none, fs := { dirs := [], runs := [] } }

/-- The external world at the interface boundary (spec §6): per deck id, the
scalar each fixed artifact lookup yields, plus the model attributes read by
the calculations.  `massOut d` is the value `extract_mass_from_file` reads in
deck `d`; `intrusionRaw d` is `abs(df[col].abs().max())` of deck `d`'s
time-series table; `forcePeak d` / `forceMean d` are
`np.abs(np.max(force_data))` / `np.abs(np.mean(force_data))` for deck `d`. -/
structure Env where
  massOut : Int → ℚ
  intrusionRaw : Int → ℚ
  forcePeak : Int → ℚ
  forceMean : Int → ℚ
  rigidMass : ℚ
  impactorOffset : ℚ
  absorbedEnergy : ℚ

/-- `OptiProblem.run_simulation`: under sequential numbering the problem id is
first decremented back to the deck's id; then `run_radioss` is invoked on that
deck. -/
def runSimulation (p : Prob) (starter : Bool) (s : St) : St :=
  let s := if p.seq then { s with pid := s.pid - 1 } else s
  { s with fs := { s.fs with runs := s.fs.runs ++ [(starter, s.pid)] } }

/-- `OptiProblem.load_output_data_frame`: read the csv of the current deck into
`output_data_frame`, then (sequential numbering) advance the problem id. -/
def loadOutputDataFrame (p : Prob) (s : St) : St :=
  let s := { s with df := some s.pid }
  if p.seq then { s with pid := s.pid + 1 } else s

/-- `OptiProblem.instrusion_calculation` (sic). -/
def instrusionCalculation (p : Prob) (env : Env) (s : St) : ℚ × St :=
  let s :=
    if s.status < 2 ∨ s.df = none then
      let s := runSimulation p false s
      let s := loadOutputDataFrame p s
      { s with status := 2 }
    else s
  (env.intrusionRaw (s.df.getD 0) - env.impactorOffset, s)

/-- `OptiProblem.mass_calculation`: run the starter if not yet done, extract
the mass from the current deck's starter `.out` file, subtract the rigid mass,
then (sequential numbering) advance the problem id once more. -/
def massCalculation (p : Prob) (env : Env) (s : St) : ℚ × St :=
  let s := if s.status < 1 then { runSimulation p true s with status := 1 } else s
  let val := env.massOut s.pid - env.rigidMass
  let s := if p.seq then { s with pid := s.pid + 1 } else s
  (val, s)

/-- `OptiProblem.absorbed_energy_calculation` (`self.model.absorbed_energy()`,
a model attribute computed from the written input deck). -/
def absorbedEnergyCalculation (env : Env) (s : St) : ℚ × St :=
  (env.absorbedEnergy, s)

/-- `OptiProblem.peak_force_calculation`. -/
def peakForceCalculation (p : Prob) (env : Env) (s : St) : ℚ × St :=
  let s :=
    if s.status < 2 ∨ s.df = none then
      let s := runSimulation p false s
      let s := { s with status := 2 }
      loadOutputDataFrame p s
    else s
  (env.forcePeak (s.df.getD 0), s)

/-- `OptiProblem.mean_force_calculation`. -/
def meanForceCalculation (p : Prob) (env : Env) (s : St) : ℚ × St :=
  let s :=
    if s.status < 2 ∨ s.df = none then
      let s := runSimulation p false s
      let s := loadOutputDataFrame p s
      { s with status := 2 }
    else s
  (env.forceMean (s.df.getD 0), s)

/-- The `handle_single` closure of `OptiProblem.__call__`: dispatch a metric
name, with `np.nan` (modelled `none`) for names absent from the table.
Evaluation order of the composite formulas follows Python semantics: the
conditional's condition is evaluated first, then only the selected branch;
`penalized_sea`'s else-branch and `penalized_mass`'s else-branch call
`instrusion_calculation` a second time. -/
def handleSingle (p : Prob) (env : Env) (key : String) (s : St) : Option ℚ × St :=
  if key = "mass" then
    let r := massCalculation p env s
    (some r.1, r.2)
  else if key = "absorbed_energy" then
    let r := absorbedEnergyCalculation env s
    (some r.1, r.2)
  else if key = "intrusion" then
    let r := instrusionCalculation p env s
    (some r.1, r.2)
  else if key = "mean_impact_force" then
    let r := meanForceCalculation p env s
    (some r.1, r.2)
  else if key = "max_impact_force" then
    let r := peakForceCalculation p env s
    (some r.1, r.2)
  else if key = "specific_energy_absorbed" then
    let ra := absorbedEnergyCalculation env s
    let rm := massCalculation p env ra.2
    (some (ra.1 / rm.1), rm.2)
  else if key = "load_uniformity" then
    let rp := peakForceCalculation p env s
    let rm := meanForceCalculation p env rp.2
    (some |rp.1 / rm.1|, rm.2)
  else if key = "penalized_sea" then
    let ri := instrusionCalculation p env s
    if ri.1 ≤ 60 then
      let ra := absorbedEnergyCalculation env ri.2
      let rm := massCalculation p env ra.2
      (some (-(ra.1 / rm.1)), rm.2)
    else
      let ri2 := instrusionCalculation p env ri.2
      (some (-(-100 * (ri2.1 - 60))), ri2.2)
  else if key = "penalized_mass" then
    let ri := instrusionCalculation p env s
    if ri.1 ≤ 50 then
      let rm := massCalculation p env ri.2
      (some rm.1, rm.2)
    else
      let ri2 := instrusionCalculation p env ri.2
      (some (4.25952 + 10 * (ri2.1 / 50 - 1)), ri2.2)
  else (none, s)

/-- The metric loop of the list branch of `__call__`: append `handle_single`
results in order. -/
def evalKeys (p : Prob) (env : Env) : List String → St → List (Option ℚ) × St
  | [], s => ([], s)
  | k :: ks, s =>
    let r := handleSingle p env k s
    let rest := evalKeys p env ks r.2
    (r.1 :: rest.1, rest.2)

/-- List branch of `__call__`: pop the first `'intrusion'` entry, evaluate the
remaining keys in order, then compute `instrusion_calculation()` and insert it
back at the popped position. -/
def evalList (p : Prob) (env : Env) (keys : List String) (s : St) :
    List (Option ℚ) × St :=
  if "intrusion" ∈ keys then
    let i := keys.indexOf "intrusion"
    let rest := evalKeys p env (keys.eraseIdx i) s
    let ri := instrusionCalculation p env rest.2
    ((rest.1.insertIdx i (some ri.1)), ri.2)
  else
    evalKeys p env keys s

/-- `OptiProblem.generate_input_deck`: reset `sim_status`, validate the design
vector, map it to the FEM space, create the deck directory if missing, write
the input files, and (sequential numbering) advance the problem id. -/
def generateInputDeck (p : Prob) (v : List ℚ) (s : St) : St × Except EvalErr Unit :=
  let s := { s with status := 0 }
  if v.length ≠ p.dimension then (s, .error .sizeMismatch)
  else if v.any fun x => ¬(-5 ≤ x ∧ x ≤ 5) then (s, .error .outOfRangeInput)
  else
    let s :=
      if s.pid ∈ s.fs.dirs then s
      else { s with fs := { s.fs with dirs := s.fs.dirs ++ [s.pid] } }
    let s := if p.seq then { s with pid := s.pid + 1 } else s
    (s, .ok ())

/-- Result of `__call__`: a scalar or an ordered list. -/
inductive EvalOut where
  | scalar (v : Option ℚ)
  | listOut (vs : List (Option ℚ))
deriving DecidableEq

/-- `OptiProblem.__call__`: under the explicit-identity policy assign the
caller-supplied id through the `problem_id` setter (rejecting ids `<= 0`),
reset `sim_status`, generate the input deck, then dispatch on `output_data`. -/
def callEvaluate (p : Prob) (env : Env) (v : List ℚ) (pidArg : Int) (s : St) :
    St × Except EvalErr EvalOut :=
  if p.seq = false ∧ pidArg ≤ 0 then (s, .error .invalidIdentity)
  else
    let s := if p.seq then s else { s with pid := pidArg }
    let s := { s with status := 0 }
    match generateInputDeck p v s with
    | (s, .error e) => (s, .error e)
    | (s, .ok _) =>
      match p.outputData with
      | .single k =>
        let r := handleSingle p env k s
        (r.2, .ok (.scalar r.1))
      | .many keys =>
        let r := evalList p env keys s
        (r.2, .ok (.listOut r.1))

/-- The three problem families. -/
inductive Family where
  | starBox
  | threePointBending
  | crashTube
deriving DecidableEq

/-- `forbidden_output_data` per family. -/
def forbiddenOf : Family → List String
  | .starBox => ["penalized_mass"]
  | .threePointBending => ["penalized_sea"]
  | .crashTube =>
    ["penalized_sea", "penalized_mass", "absorbed_energy", "specific_energy_absorbed"]

/-- Default `output_data` assigned by each subclass when the caller passes
`None`. -/
def defaultOutputOf : Family → String
  | .starBox => "penalized_sea"
  | .threePointBending => "penalized_mass"
  | .crashTube => "load_uniformity"

/-- `StarBox._generate_variable_ranges_map`: fixed tables for dimensions 1-5,
and for other dimensions the dimension-5 table extended with `(0.7, 3)` slots
(`range(dimension-5)` is empty for `dimension <= 5`, so dimension 0 also gets
the dimension-5 table). -/
def starBoxRanges (d : Nat) : List (ℚ × ℚ) :=
  if 0 < d ∧ d ≤ 5 then
    [[(60, 120)],
     [(60, 120), (60, 120)],
     [(60, 120), (60, 120), (0.7, 3)],
     [(60, 120), (60, 120), (0, 30), (0, 30)],
     [(60, 120), (60, 120), (0, 30), (0, 30), (0.7, 3)]].getD (d - 1) []
  else
    [(60, 120), (60, 120), (0, 30), (0, 30), (0.7, 3)] ++
      List.replicate (d - 5) (0.7, 3)

/-- `CrashTube._generate_variable_ranges_map`: slot `i` gets
`patterns[i % 3]` with `patterns = [(-10, 10), (-4, 4), (0, 4)]`. -/
def crashTubeRanges (d : Nat) : List (ℚ × ℚ) :=
  (List.range d).map fun i => [((-10 : ℚ), (10 : ℚ)), (-4, 4), (0, 4)].getD (i % 3) (0, 0)

/-- `ThreePointBending.__init__`'s `variable_ranges_map`
(`{ii + 1 : [(-5, 5)]*ii for ii in range(40)}`): key `d` holds `d - 1`
entries.  (The bound `d <= 40` is enforced separately in the constructor
model; this is the value at a present key.) -/
def threePointBendingRanges (d : Nat) : List (ℚ × ℚ) :=
  List.replicate (d - 1) (-5, 5)

/-- Family-specific `variable_ranges` assigned in `__init__`. -/
def rangesOf : Family → Nat → List (ℚ × ℚ)
  | .starBox, d => starBoxRanges d
  | .crashTube, d => crashTubeRanges d
  | .threePointBending, d => threePointBendingRanges d

/-- The caller-supplied `output_data` argument (`None` means the family
default). -/
inductive OutputReq where
  | single (s : String)
  | many (l : List String)
deriving DecidableEq

/-- The forbidden-metric test each subclass `__init__` performs before calling
`super().__init__`. -/
def hitsForbidden (f : Family) (out : Option OutputReq) : Bool :=
  match out with
  | none => false
  | some (.single s) => decide (s ∈ forbiddenOf f)
  | some (.many l) => decide (∃ e ∈ l, e ∈ forbiddenOf f)

/-- The `output_data` property setter: an unrecognized single string raises
`ValueError`; a list is filtered (see `setOutputDataList`). -/
def setOutputData : OutputReq → Except InitErr OutputData
  | .single s =>
    if recognizedOutput s then .ok (.single s) else .error .badOutput
  | .many l => .ok (.many (setOutputDataList l))

/-- Problem construction (`StarBox.__init__` / `ThreePointBending.__init__` /
`CrashTube.__init__` plus `OptiProblem.__init__`): forbidden-metric check
first, then the `dimension` setter (positivity), then the `output_data`
setter, then the family ranges table (`ThreePointBending` indexes a dict with
keys `1..40`).  Under sequential numbering the class-level `instance_counter`
is read as the instance's `problem_id` and then incremented; the counter and
the filesystem log are threaded explicitly, and `__init__` performs no
filesystem or solver operation.  Returns the instance together with its
initial `problem_id` (which stays at the sentinel `-1` under the explicit
policy). -/
def constructProblem (f : Family) (dim : Nat) (out : Option OutputReq)
    (seq : Bool) (counter : Nat) (fs : FsState) :
    (FsState × Nat) × Except InitErr (Prob × Int) :=
  if hitsForbidden f out then ((fs, counter), .error .forbiddenMetric)
  else
    let req := out.getD (.single (defaultOutputOf f))
    if dim = 0 then ((fs, counter), .error .nonPositiveDimension)
    else
      match setOutputData req with
      | .error e => ((fs, counter), .error e)
      | .ok od =>
        if f = .threePointBending ∧ 40 < dim then
          ((fs, counter), .error .unsupportedDimension)
        else
          let p : Prob :=
            { dimension := dim, ranges := rangesOf f dim, seq := seq, outputData := od }
          let pid : Int := if seq then (counter : Int) else -1
          let counter := if seq then counter + 1 else counter
          ((fs, counter), .ok (p, pid))

/-- What `extract_mass_from_file` produces: a raised exception (`IndexError`
from `lines[i+4]` / `[0]`, `ValueError` from `float`), a returned float, or —
when no line contains the marker — a *returned* `ValueError` exception
object. -/
inductive ExtractResult where
  | raised (msg : String)
  | value (q : ℚ)
  | errorObject (msg : String)
deriving DecidableEq

/-- The marker line `extract_mass_from_file` searches for. -/
def massMarker : String := "TOTAL MASS AND MASS CENTER"

/-- `bs` starts with `as` (character-list comparison). -/
def startsWithChars : List Char → List Char → Bool
  | [], _ => true
  | _ :: _, [] => false
  | a :: as, b :: bs => a = b && startsWithChars as bs

/-- `as` occurs as a contiguous run inside `bs`. -/
def occursInChars (as : List Char) : List Char → Bool
  | [] => startsWithChars as []
  | b :: bs => startsWithChars as (b :: bs) || occursInChars as bs

/-- Python's `mass_marker in line` substring test. -/
def containsMarker (line : String) : Bool :=
  occursInChars massMarker.data line.data

/-- `mass_line.strip().split()[0]`: first whitespace-separated token, `none`
when the stripped line is empty (`[0]` would raise `IndexError`). -/
def firstToken (line : String) : Option String :=
  let body := (pyStrip line).data
  let tok := body.takeWhile fun c => ¬c.isWhitespace
  if tok.isEmpty then none else some ⟨tok⟩

/-- `OptiProblem.extract_mass_from_file` on the lines of the starter `.out`
file.  `parseFloat` stands for Python's `float` conversion (`none` = raises
`ValueError`).  On the first marker line, the value is read from the line four
below; if no line contains the marker the function *returns* (does not raise)
`ValueError("Mass value output failed!")`. -/
def extractMassFromFile (parseFloat : String → Option ℚ) (lines : List String) :
    ExtractResult :=
  match lines.findIdx? containsMarker with
  | some i =>
    match lines.get? (i + 4) with
    | none => .raised "IndexError"
    | some ml =>
      match firstToken ml with
      | none => .raised "IndexError"
      | some tok =>
        match parseFloat tok with
        | some q => .value q
        | none => .raised "ValueError"
  | none => .errorObject "Mass value output failed!"

/-- What `val = self.extract_mass_from_file() - self.model.rigid_mass` does
with each possible `extract_mass_from_file` outcome: subtraction is defined
only on the float; on the returned `ValueError` object Python raises
`TypeError` (unsupported operand types for `-`). -/
inductive MassCalcResult where
  | ok (q : ℚ)
  | typeErrorOnExceptionObject (msg : String)
  | raised (msg : String)
deriving DecidableEq

/-- The subtraction step of `mass_calculation` applied to the
`extract_mass_from_file` result. -/
def massCalcSubtract (r : ExtractResult) (rigid : ℚ) : MassCalcResult :=
  match r with
  | .value q => .ok (q - rigid)
  | .errorObject m => .typeErrorOnExceptionObject m
  | .raised m => .raised m

/-- The pure per-deck metric value table (for a fixed deck id, the value each
`handle_single` entry computes, with `none` for `np.nan`).  Under the
explicit-identity policy every artifact read of one `__call__` happens on deck
`pid`, so this is the observable value of each metric. -/
def metricValue (env : Env) (pid : Int) (key : String) : Option ℚ :=
  if key = "mass" then some (env.massOut pid - env.rigidMass)
  else if key = "absorbed_energy" then some env.absorbedEnergy
  else if key = "intrusion" then some (env.intrusionRaw pid - env.impactorOffset)
  else if key = "mean_impact_force" then some (env.forceMean pid)
  else if key = "max_impact_force" then some (env.forcePeak pid)
  else if key = "specific_energy_absorbed" then
    some (env.absorbedEnergy / (env.massOut pid - env.rigidMass))
  else if key = "load_uniformity" then some |env.forcePeak pid / env.forceMean pid|
  else if key = "penalized_sea" then
    if env.intrusionRaw pid - env.impactorOffset ≤ 60 then
      some (-(env.absorbedEnergy / (env.massOut pid - env.rigidMass)))
    else some (-(-100 * (env.intrusionRaw pid - env.impactorOffset - 60)))
  else if key = "penalized_mass" then
    if env.intrusionRaw pid - env.impactorOffset ≤ 50 then
      some (env.massOut pid - env.rigidMass)
    else some (4.25952 + 10 * ((env.intrusionRaw pid - env.impactorOffset) / 50 - 1))
  else none

/-!
## Helper lemmas

`GoodSt` is the consistency invariant between the cached data frame and the
current problem id: whenever the full simulation is recorded as done, the
cached frame was loaded from the current deck.  Under the explicit-identity
policy (`seq = false`) the problem id never moves during a call, every
artifact read happens on the current deck, and each `handle_single` entry
computes exactly `metricValue`. -/
def GoodSt (s : St) : Prop := ∀ d, s.df = some d → 2 ≤ s.status → d = s.pid

theorem goodSt_of_status_lt_two {s : St} (h : s.status < 2) : GoodSt s := by
  intro d _ h2
  omega

theorem mass_spec (p : Prob) (env : Env) (s : St) (h : p.seq = false) :
    massCalculation p env s =
      (env.massOut s.pid - env.rigidMass,
        if s.status < 1 then
          { s with status := 1,
                   fs := { s.fs with runs := s.fs.runs ++ [(true, s.pid)] } }
        else s) := by
  simp only [massCalculation, runSimulation, h]
  split <;> rfl

theorem intrusion_spec (p : Prob) (env : Env) (s : St) (h : p.seq = false) :
    instrusionCalculation p env s =
      if s.status < 2 ∨ s.df = none then
        (env.intrusionRaw s.pid - env.impactorOffset,
          { s with status := 2, df := some s.pid,
                   fs := { s.fs with runs := s.fs.runs ++ [(false, s.pid)] } })
      else (env.intrusionRaw (s.df.getD 0) - env.impactorOffset, s) := by
  simp only [instrusionCalculation, runSimulation, loadOutputDataFrame, h]
  split <;> rfl

theorem peak_spec (p : Prob) (env : Env) (s : St) (h : p.seq = false) :
    peakForceCalculation p env s =
      if s.status < 2 ∨ s.df = none then
        (env.forcePeak s.pid,
          { s with status := 2, df := some s.pid,
                   fs := { s.fs with runs := s.fs.runs ++ [(false, s.pid)] } })
      else (env.forcePeak (s.df.getD 0), s) := by
  simp only [peakForceCalculation, runSimulation, loadOutputDataFrame, h]
  split <;> rfl

theorem mean_spec (p : Prob) (env : Env) (s : St) (h : p.seq = false) :
    meanForceCalculation p env s =
      if s.status < 2 ∨ s.df = none then
        (env.forceMean s.pid,
          { s with status := 2, df := some s.pid,
                   fs := { s.fs with runs := s.fs.runs ++ [(false, s.pid)] } })
      else (env.forceMean (s.df.getD 0), s) := by
  simp only [meanForceCalculation, runSimulation, loadOutputDataFrame, h]
  split <;> rfl

theorem goodSt_mass (p : Prob) (env : Env) (s : St) (h : p.seq = false)
    (hg : GoodSt s) :
    (massCalculation p env s).1 = env.massOut s.pid - env.rigidMass ∧
    (massCalculation p env s).2.pid = s.pid ∧ GoodSt (massCalculation p env s).2 := by
  rw [mass_spec p env s h]
  refine ⟨rfl, ?_, ?_⟩ <;> split
  · rfl
  · rfl
  · intro d hdf h2
    simp at h2
  · exact hg

theorem goodSt_intrusion (p : Prob) (env : Env) (s : St) (h : p.seq = false)
    (hg : GoodSt s) :
    (instrusionCalculation p env s).1 = env.intrusionRaw s.pid - env.impactorOffset ∧
    (instrusionCalculation p env s).2.pid = s.pid ∧
    GoodSt (instrusionCalculation p env s).2 := by
  rw [intrusion_spec p env s h]
  split
  · refine ⟨rfl, rfl, ?_⟩
    intro d hdf _
    simpa using hdf.symm
  · rename_i hcond
    push_neg at hcond
    obtain ⟨hst, hdf⟩ := hcond
    obtain ⟨d, hd⟩ := Option.ne_none_iff_exists'.mp hdf
    have : d = s.pid := hg d hd (by omega)
    refine ⟨?_, rfl, hg⟩
    rw [hd]
    simp [this]

theorem goodSt_peak (p : Prob) (env : Env) (s : St) (h : p.seq = false)
    (hg : GoodSt s) :
    (peakForceCalculation p env s).1 = env.forcePeak s.pid ∧
    (peakForceCalculation p env s).2.pid = s.pid ∧
    GoodSt (peakForceCalculation p env s).2 := by
  rw [peak_spec p env s h]
  split
  · refine ⟨rfl, rfl, ?_⟩
    intro d hdf _
    simpa using hdf.symm
  · rename_i hcond
    push_neg at hcond
    obtain ⟨hst, hdf⟩ := hcond
    obtain ⟨d, hd⟩ := Option.ne_none_iff_exists'.mp hdf
    have : d = s.pid := hg d hd (by omega)
    refine ⟨?_, rfl, hg⟩
    rw [hd]
    simp [this]

theorem goodSt_mean (p : Prob) (env : Env) (s : St) (h : p.seq = false)
    (hg : GoodSt s) :
    (meanForceCalculation p env s).1 = env.forceMean s.pid ∧
    (meanForceCalculation p env s).2.pid = s.pid ∧
    GoodSt (meanForceCalculation p env s).2 := by
  rw [mean_spec p env s h]
  split
  · refine ⟨rfl, rfl, ?_⟩
    intro d hdf _
    simpa using hdf.symm
  · rename_i hcond
    push_neg at hcond
    obtain ⟨hst, hdf⟩ := hcond
    obtain ⟨d, hd⟩ := Option.ne_none_iff_exists'.mp hdf
    have : d = s.pid := hg d hd (by omega)
    refine ⟨?_, rfl, hg⟩
    rw [hd]
    simp [this]

/-- Reduction equations for the literal keys of the `handle_single` table. -/
theorem handleSingle_mass (p : Prob) (env : Env) (s : St) :
    handleSingle p env "mass" s =
      (some (massCalculation p env s).1, (massCalculation p env s).2) := rfl

theorem handleSingle_absorbed (p : Prob) (env : Env) (s : St) :
    handleSingle p env "absorbed_energy" s = (some env.absorbedEnergy, s) := rfl

theorem handleSingle_intrusion (p : Prob) (env : Env) (s : St) :
    handleSingle p env "intrusion" s =
      (some (instrusionCalculation p env s).1, (instrusionCalculation p env s).2) := rfl

theorem handleSingle_mean (p : Prob) (env : Env) (s : St) :
    handleSingle p env "mean_impact_force" s =
      (some (meanForceCalculation p env s).1, (meanForceCalculation p env s).2) := rfl

theorem handleSingle_peak (p : Prob) (env : Env) (s : St) :
    handleSingle p env "max_impact_force" s =
      (some (peakForceCalculation p env s).1, (peakForceCalculation p env s).2) := rfl

theorem handleSingle_sea (p : Prob) (env : Env) (s : St) :
    handleSingle p env "specific_energy_absorbed" s =
      (some (env.absorbedEnergy / (massCalculation p env s).1),
        (massCalculation p env s).2) := rfl

theorem handleSingle_lu (p : Prob) (env : Env) (s : St) :
    handleSingle p env "load_uniformity" s =
      (some |(peakForceCalculation p env s).1 /
          (meanForceCalculation p env (peakForceCalculation p env s).2).1|,
        (meanForceCalculation p env (peakForceCalculation p env s).2).2) := rfl

theorem handleSingle_psea (p : Prob) (env : Env) (s : St) :
    handleSingle p env "penalized_sea" s =
      (if (instrusionCalculation p env s).1 ≤ 60 then
        (some (-(env.absorbedEnergy /
            (massCalculation p env (instrusionCalculation p env s).2).1)),
          (massCalculation p env (instrusionCalculation p env s).2).2)
      else
        (some (-(-100 *
            ((instrusionCalculation p env (instrusionCalculation p env s).2).1 - 60))),
          (instrusionCalculation p env (instrusionCalculation p env s).2).2)) := rfl

theorem handleSingle_pmass (p : Prob) (env : Env) (s : St) :
    handleSingle p env "penalized_mass" s =
      (if (instrusionCalculation p env s).1 ≤ 50 then
        (some (massCalculation p env (instrusionCalculation p env s).2).1,
          (massCalculation p env (instrusionCalculation p env s).2).2)
      else
        (some (4.25952 + 10 *
            ((instrusionCalculation p env (instrusionCalculation p env s).2).1 / 50 - 1)),
          (instrusionCalculation p env (instrusionCalculation p env s).2).2)) := rfl

/-- Reduction equations for `metricValue` at the literal keys. -/
theorem metricValue_mass (env : Env) (pid : Int) :
    metricValue env pid "mass" = some (env.massOut pid - env.rigidMass) := rfl

theorem metricValue_absorbed (env : Env) (pid : Int) :
    metricValue env pid "absorbed_energy" = some env.absorbedEnergy := rfl

theorem metricValue_intrusion (env : Env) (pid : Int) :
    metricValue env pid "intrusion" =
      some (env.intrusionRaw pid - env.impactorOffset) := rfl

theorem metricValue_mean (env : Env) (pid : Int) :
    metricValue env pid "mean_impact_force" = some (env.forceMean pid) := rfl

theorem metricValue_peak (env : Env) (pid : Int) :
    metricValue env pid "max_impact_force" = some (env.forcePeak pid) := rfl

theorem metricValue_sea (env : Env) (pid : Int) :
    metricValue env pid "specific_energy_absorbed" =
      some (env.absorbedEnergy / (env.massOut pid - env.rigidMass)) := rfl

theorem metricValue_lu (env : Env) (pid : Int) :
    metricValue env pid "load_uniformity" =
      some |env.forcePeak pid / env.forceMean pid| := rfl

theorem metricValue_psea (env : Env) (pid : Int) :
    metricValue env pid "penalized_sea" =
      (if env.intrusionRaw pid - env.impactorOffset ≤ 60 then
        some (-(env.absorbedEnergy / (env.massOut pid - env.rigidMass)))
      else some (-(-100 * (env.intrusionRaw pid - env.impactorOffset - 60)))) := rfl

theorem metricValue_pmass (env : Env) (pid : Int) :
    metricValue env pid "penalized_mass" =
      (if env.intrusionRaw pid - env.impactorOffset ≤ 50 then
        some (env.massOut pid - env.rigidMass)
      else
        some (4.25952 + 10 * ((env.intrusionRaw pid - env.impactorOffset) / 50 - 1))) := rfl

/-- Under the explicit-identity policy, each `handle_single` entry computes the
pure per-deck value `metricValue env s.pid`, never moves the problem id, and
preserves the frame/deck consistency invariant. -/
theorem handleSingle_explicit (p : Prob) (env : Env) (key : String) (s : St)
    (h : p.seq = false) (hg : GoodSt s) :
    (handleSingle p env key s).1 = metricValue env s.pid key ∧
    (handleSingle p env key s).2.pid = s.pid ∧
    GoodSt (handleSingle p env key s).2 := by
  by_cases h1 : key = "mass"
  · obtain ⟨hv, hp, hgn⟩ := goodSt_mass p env s h hg
    subst h1
    rw [handleSingle_mass, metricValue_mass]
    exact ⟨by rw [hv], hp, hgn⟩
  by_cases h2 : key = "absorbed_energy"
  · subst h2
    rw [handleSingle_absorbed, metricValue_absorbed]
    exact ⟨rfl, rfl, hg⟩
  by_cases h3 : key = "intrusion"
  · obtain ⟨hv, hp, hgn⟩ := goodSt_intrusion p env s h hg
    subst h3
    rw [handleSingle_intrusion, metricValue_intrusion]
    exact ⟨by rw [hv], hp, hgn⟩
  by_cases h4 : key = "mean_impact_force"
  · obtain ⟨hv, hp, hgn⟩ := goodSt_mean p env s h hg
    subst h4
    rw [handleSingle_mean, metricValue_mean]
    exact ⟨by rw [hv], hp, hgn⟩
  by_cases h5 : key = "max_impact_force"
  · obtain ⟨hv, hp, hgn⟩ := goodSt_peak p env s h hg
    subst h5
    rw [handleSingle_peak, metricValue_peak]
    exact ⟨by rw [hv], hp, hgn⟩
  by_cases h6 : key = "specific_energy_absorbed"
  · obtain ⟨hv, hp, hgn⟩ := goodSt_mass p env s h hg
    subst h6
    rw [handleSingle_sea, metricValue_sea]
    exact ⟨by rw [hv], hp, hgn⟩
  by_cases h7 : key = "load_uniformity"
  · obtain ⟨hvp, hpp, hgp⟩ := goodSt_peak p env s h hg
    obtain ⟨hvm, hpm, hgm⟩ :=
      goodSt_mean p env (peakForceCalculation p env s).2 h hgp
    subst h7
    rw [handleSingle_lu, metricValue_lu]
    refine ⟨?_, by rw [hpm, hpp], hgm⟩
    rw [hvp, hvm, hpp]
  by_cases h8 : key = "penalized_sea"
  · obtain ⟨hvi, hpi, hgi⟩ := goodSt_intrusion p env s h hg
    subst h8
    rw [handleSingle_psea, metricValue_psea, hvi]
    split
    · obtain ⟨hvm, hpm, hgm⟩ :=
        goodSt_mass p env (instrusionCalculation p env s).2 h hgi
      refine ⟨?_, by rw [hpm, hpi], hgm⟩
      rw [hvm, hpi]
    · obtain ⟨hvi2, hpi2, hgi2⟩ :=
        goodSt_intrusion p env (instrusionCalculation p env s).2 h hgi
      refine ⟨?_, by rw [hpi2, hpi], hgi2⟩
      rw [hvi2, hpi]
  by_cases h9 : key = "penalized_mass"
  · obtain ⟨hvi, hpi, hgi⟩ := goodSt_intrusion p env s h hg
    subst h9
    rw [handleSingle_pmass, metricValue_pmass, hvi]
    split
    · obtain ⟨hvm, hpm, hgm⟩ :=
        goodSt_mass p env (instrusionCalculation p env s).2 h hgi
      refine ⟨?_, by rw [hpm, hpi], hgm⟩
      rw [hvm, hpi]
    · obtain ⟨hvi2, hpi2, hgi2⟩ :=
        goodSt_intrusion p env (instrusionCalculation p env s).2 h hgi
      refine ⟨?_, by rw [hpi2, hpi], hgi2⟩
      rw [hvi2, hpi]
  · have hh : handleSingle p env key s = (none, s) := by
      unfold handleSingle
      simp only [if_neg h1, if_neg h2, if_neg h3, if_neg h4, if_neg h5,
        if_neg h6, if_neg h7, if_neg h8, if_neg h9]
    have hm : metricValue env s.pid key = none := by
      unfold metricValue
      simp only [if_neg h1, if_neg h2, if_neg h3, if_neg h4, if_neg h5,
        if_neg h6, if_neg h7, if_neg h8, if_neg h9]
    rw [hh, hm]
    exact ⟨rfl, rfl, hg⟩

/-- Explicit policy: the metric loop returns the pure values in request
order. -/
theorem evalKeys_explicit (p : Prob) (env : Env) (h : p.seq = false) :
    ∀ (keys : List String) (s : St), GoodSt s →
      (evalKeys p env keys s).1 = keys.map (metricValue env s.pid) ∧
      (evalKeys p env keys s).2.pid = s.pid ∧ GoodSt (evalKeys p env keys s).2
  | [], s, hg => ⟨rfl, rfl, hg⟩
  | k :: ks, s, hg => by
    obtain ⟨hv, hp, hg1⟩ := handleSingle_explicit p env k s h hg
    obtain ⟨hv2, hp2, hg2⟩ := evalKeys_explicit p env h ks (handleSingle p env k s).2 hg1
    simp only [evalKeys, List.map_cons]
    refine ⟨?_, by rw [hp2, hp], hg2⟩
    rw [hv, hv2, hp]

/-- Reinserting the image of the popped element at its original position
reconstructs the image of the whole list. -/
theorem insertIdx_eraseIdx_indexOf_map {α : Type} [DecidableEq α] {β : Type}
    (f : α → β) (a : α) :
    ∀ L : List α, a ∈ L →
      (((L.eraseIdx (L.indexOf a)).map f).insertIdx (L.indexOf a) (f a)) = L.map f
  | [], hmem => by cases hmem
  | b :: t, hmem => by
    by_cases hb : b = a
    · subst hb
      rw [List.indexOf_cons_self]
      rfl
    · have ht : a ∈ t := by
        rcases List.mem_cons.mp hmem with h | h
        · exact absurd h.symm hb
        · exact h
      rw [List.indexOf_cons_ne t (by exact hb)]
      simpa [List.eraseIdx, List.insertIdx_succ_cons] using
        insertIdx_eraseIdx_indexOf_map f a t ht

/-- Explicit policy: the list branch of `__call__` (pop `'intrusion'`,
evaluate, reinsert) is the positional image under `metricValue`. -/
theorem evalList_explicit (p : Prob) (env : Env) (keys : List String) (s : St)
    (h : p.seq = false) (hg : GoodSt s) :
    (evalList p env keys s).1 = keys.map (metricValue env s.pid) ∧
    (evalList p env keys s).2.pid = s.pid ∧ GoodSt (evalList p env keys s).2 := by
  unfold evalList
  split
  · rename_i hmem
    dsimp only
    obtain ⟨hv, hp, hg1⟩ :=
      evalKeys_explicit p env h (keys.eraseIdx (keys.indexOf "intrusion")) s hg
    obtain ⟨hvi, hpi, hgi⟩ :=
      goodSt_intrusion p env (evalKeys p env (keys.eraseIdx (keys.indexOf "intrusion")) s).2 h hg1
    refine ⟨?_, by rw [hpi, hp], hgi⟩
    rw [hv, hvi, hp, ← metricValue_intrusion env s.pid]
    exact insertIdx_eraseIdx_indexOf_map (metricValue env s.pid) "intrusion" keys hmem
  · exact evalKeys_explicit p env h keys s hg

/-- Successful validation: `generate_input_deck` creates the deck directory if
missing, performs no solver run, and (explicit policy) keeps the problem id
put / (sequential policy) advances it by one. -/
theorem generate_ok (p : Prob) (v : List ℚ) (s : St)
    (h2 : v.length = p.dimension) (h3 : ∀ x ∈ v, -5 ≤ x ∧ x ≤ 5) :
    generateInputDeck p v s =
      ({ pid := if p.seq then s.pid + 1 else s.pid, status := 0, df := s.df,
         fs := { dirs := if s.pid ∈ s.fs.dirs then s.fs.dirs
                   else s.fs.dirs ++ [s.pid],
                 runs := s.fs.runs } }, .ok ()) := by
  have hany : (v.any fun x => ¬(-5 ≤ x ∧ x ≤ 5)) = false := by
    simp only [List.any_eq_false, decide_eq_true_eq]
    intro x hx
    simpa using h3 x hx
  unfold generateInputDeck
  rw [if_neg (by omega), if_neg (by rw [hany]; simp)]
  split <;> split <;> rfl

/-- Explicit-identity policy, single-metric request: `__call__` returns the
pure per-deck value of the requested metric on deck `pidArg`. -/
theorem callEvaluate_explicit_single (p : Prob) (env : Env) (v : List ℚ)
    (pidArg : Int) (s : St) (k : String) (h : p.seq = false)
    (hod : p.outputData = .single k) (h1 : 0 < pidArg)
    (h2 : v.length = p.dimension) (h3 : ∀ x ∈ v, -5 ≤ x ∧ x ≤ 5) :
    (callEvaluate p env v pidArg s).2 = .ok (.scalar (metricValue env pidArg k)) := by
  have hguard : ¬(p.seq = false ∧ pidArg ≤ 0) := by
    rintro ⟨-, hle⟩
    omega
  unfold callEvaluate
  rw [if_neg hguard]
  simp only [h, Bool.false_eq_true, if_false]
  rw [generate_ok p v _ h2 h3]
  simp only [h, Bool.false_eq_true, if_false, hod]
  obtain ⟨hv, -, -⟩ := handleSingle_explicit p env k
    { pid := pidArg, status := 0, df := s.df,
      fs := { dirs := if pidArg ∈ s.fs.dirs then s.fs.dirs
                else s.fs.dirs ++ [pidArg],
              runs := s.fs.runs } } h (goodSt_of_status_lt_two (by simp))
  rw [hv]

/-- Explicit-identity policy, list request: `__call__` returns the pure
per-deck values in exactly the requested order. -/
theorem callEvaluate_explicit_many (p : Prob) (env : Env) (v : List ℚ)
    (pidArg : Int) (s : St) (keys : List String) (h : p.seq = false)
    (hod : p.outputData = .many keys) (h1 : 0 < pidArg)
    (h2 : v.length = p.dimension) (h3 : ∀ x ∈ v, -5 ≤ x ∧ x ≤ 5) :
    (callEvaluate p env v pidArg s).2 =
      .ok (.listOut (keys.map (metricValue env pidArg))) := by
  have hguard : ¬(p.seq = false ∧ pidArg ≤ 0) := by
    rintro ⟨-, hle⟩
    omega
  unfold callEvaluate
  rw [if_neg hguard]
  simp only [h, Bool.false_eq_true, if_false]
  rw [generate_ok p v _ h2 h3]
  simp only [h, Bool.false_eq_true, if_false, hod]
  obtain ⟨hv, -, -⟩ := evalList_explicit p env keys
    { pid := pidArg, status := 0, df := s.df,
      fs := { dirs := if pidArg ∈ s.fs.dirs then s.fs.dirs
                else s.fs.dirs ++ [pidArg],
              runs := s.fs.runs } } h (goodSt_of_status_lt_two (by simp))
  rw [hv]

/-- Number of starter-stage `run_radioss` invocations in a log fragment. -/
def starterRuns (l : List (Bool × Int)) : Nat :=
  (l.filter fun e => e.1 = true).length

/-- Number of full-stage `run_radioss` invocations in a log fragment. -/
def fullRuns (l : List (Bool × Int)) : Nat :=
  (l.filter fun e => e.1 = false).length

/-- The guard of the full-stage calculations is false: the full simulation is
recorded as done and a data frame is cached. -/
def FullDone (s : St) : Prop := 2 ≤ s.status ∧ s.df ≠ none

/-- One step of the metric phase appends `Δ` to the run log with the staging
discipline of `sim_status`: no starter run once `sim_status >= 1`, no full run
once `FullDone`, at most one run of each kind, and a run of a kind establishes
the corresponding done-flag. -/
def RunDelta (s s' : St) (Δ : List (Bool × Int)) : Prop :=
  s'.fs.runs = s.fs.runs ++ Δ ∧
  (1 ≤ s.status → 1 ≤ s'.status) ∧ (FullDone s → FullDone s') ∧
  (1 ≤ s.status → starterRuns Δ = 0) ∧ starterRuns Δ ≤ 1 ∧
  (starterRuns Δ = 1 → 1 ≤ s'.status) ∧
  (FullDone s → fullRuns Δ = 0) ∧ fullRuns Δ ≤ 1 ∧
  (fullRuns Δ = 1 → FullDone s')

theorem starterRuns_append (a b : List (Bool × Int)) :
    starterRuns (a ++ b) = starterRuns a + starterRuns b := by
  simp [starterRuns]

theorem fullRuns_append (a b : List (Bool × Int)) :
    fullRuns (a ++ b) = fullRuns a + fullRuns b := by
  simp [fullRuns]

theorem runDelta_refl (s : St) : RunDelta s s [] := by
  refine ⟨by simp, fun h => h, fun h => h, ?_, ?_, ?_, ?_, ?_, ?_⟩ <;>
    simp [starterRuns, fullRuns]

/-- The staging discipline composes: a sequence of steps still runs each stage
at most once. -/
theorem runDelta_comp {s s₁ s₂ : St} {d₁ d₂ : List (Bool × Int)}
    (a : RunDelta s s₁ d₁) (b : RunDelta s₁ s₂ d₂) :
    RunDelta s s₂ (d₁ ++ d₂) := by
  obtain ⟨ar, as1, af1, as0, asle, asdone, af0, afle, afdone⟩ := a
  obtain ⟨br, bs1, bf1, bs0, bsle, bsdone, bf0, bfle, bfdone⟩ := b
  have hs : starterRuns (d₁ ++ d₂) = starterRuns d₁ + starterRuns d₂ :=
    starterRuns_append d₁ d₂
  have hf : fullRuns (d₁ ++ d₂) = fullRuns d₁ + fullRuns d₂ :=
    fullRuns_append d₁ d₂
  refine ⟨by rw [br, ar, List.append_assoc], fun h => bs1 (as1 h),
    fun h => bf1 (af1 h), ?_, ?_, ?_, ?_, ?_, ?_⟩
  · intro h
    rw [hs, as0 h, bs0 (as1 h)]
  · rw [hs]
    by_cases h1 : starterRuns d₁ = 1
    · have := bs0 (asdone h1)
      omega
    · omega
  · rw [hs]
    intro h
    by_cases h2 : starterRuns d₂ = 1
    · exact bsdone h2
    · exact bs1 (asdone (by omega))
  · intro h
    rw [hf, af0 h, bf0 (af1 h)]
  · rw [hf]
    by_cases h1 : fullRuns d₁ = 1
    · have := bf0 (afdone h1)
      omega
    · omega
  · rw [hf]
    intro h
    by_cases h2 : fullRuns d₂ = 1
    · exact bfdone h2
    · exact bf1 (afdone (by omega))

theorem massCalculation_state (p : Prob) (env : Env) (s : St) :
    (massCalculation p env s).2 =
      if s.status < 1 then
        { s with pid := if p.seq then s.pid - 1 + 1 else s.pid,
                 status := 1,
                 fs := { s.fs with
                   runs := s.fs.runs ++ [(true, if p.seq then s.pid - 1 else s.pid)] } }
      else { s with pid := if p.seq then s.pid + 1 else s.pid } := by
  unfold massCalculation runSimulation
  split_ifs <;> rfl

theorem instrusionCalculation_state (p : Prob) (env : Env) (s : St) :
    (instrusionCalculation p env s).2 =
      if s.status < 2 ∨ s.df = none then
        { s with pid := if p.seq then s.pid - 1 + 1 else s.pid,
                 status := 2, df := some (if p.seq then s.pid - 1 else s.pid),
                 fs := { s.fs with
                   runs := s.fs.runs ++ [(false, if p.seq then s.pid - 1 else s.pid)] } }
      else s := by
  unfold instrusionCalculation runSimulation loadOutputDataFrame
  split_ifs <;> rfl

theorem peakForceCalculation_state (p : Prob) (env : Env) (s : St) :
    (peakForceCalculation p env s).2 =
      if s.status < 2 ∨ s.df = none then
        { s with pid := if p.seq then s.pid - 1 + 1 else s.pid,
                 status := 2, df := some (if p.seq then s.pid - 1 else s.pid),
                 fs := { s.fs with
                   runs := s.fs.runs ++ [(false, if p.seq then s.pid - 1 else s.pid)] } }
      else s := by
  unfold peakForceCalculation runSimulation loadOutputDataFrame
  split_ifs <;> rfl

theorem meanForceCalculation_state (p : Prob) (env : Env) (s : St) :
    (meanForceCalculation p env s).2 =
      if s.status < 2 ∨ s.df = none then
        { s with pid := if p.seq then s.pid - 1 + 1 else s.pid,
                 status := 2, df := some (if p.seq then s.pid - 1 else s.pid),
                 fs := { s.fs with
                   runs := s.fs.runs ++ [(false, if p.seq then s.pid - 1 else s.pid)] } }
      else s := by
  unfold meanForceCalculation runSimulation loadOutputDataFrame
  split_ifs <;> rfl

theorem runDelta_mass (p : Prob) (env : Env) (s : St) :
    ∃ d, RunDelta s (massCalculation p env s).2 d := by
  rw [massCalculation_state]
  by_cases h1 : s.status < 1
  · refine ⟨[(true, if p.seq then s.pid - 1 else s.pid)], ?_⟩
    rw [if_pos h1]
    refine ⟨rfl, by intro h; omega, ?_, by intro h; omega, ?_, ?_, ?_, ?_, ?_⟩ <;>
      simp [FullDone, starterRuns, fullRuns] <;> omega
  · refine ⟨[], ?_⟩
    rw [if_neg h1]
    refine ⟨by simp, fun h => h, ?_, ?_, ?_, ?_, ?_, ?_, ?_⟩ <;>
      simp [FullDone, starterRuns, fullRuns]

theorem runDelta_fullStage (p : Prob) (env : Env) (s s' : St)
    (hshape : s' =
      if s.status < 2 ∨ s.df = none then
        { s with pid := if p.seq then s.pid - 1 + 1 else s.pid,
                 status := 2, df := some (if p.seq then s.pid - 1 else s.pid),
                 fs := { s.fs with
                   runs := s.fs.runs ++ [(false, if p.seq then s.pid - 1 else s.pid)] } }
      else s) :
    ∃ d, RunDelta s s' d := by
  subst hshape
  by_cases h1 : s.status < 2 ∨ s.df = none
  · refine ⟨[(false, if p.seq then s.pid - 1 else s.pid)], ?_⟩
    rw [if_pos h1]
    have hnf : ¬FullDone s := by
      rcases h1 with h | h
      · exact fun hc => by
          obtain ⟨h2, -⟩ := hc
          omega
      · exact fun hc => hc.2 h
    refine ⟨rfl, by intro h; simp, fun h => absurd h hnf,
      ?_, ?_, ?_, fun h => absurd h hnf, ?_, ?_⟩ <;>
      simp [FullDone, starterRuns, fullRuns]
  · refine ⟨[], ?_⟩
    rw [if_neg h1]
    exact runDelta_refl s

theorem runDelta_handleSingle (p : Prob) (env : Env) (key : String) (s : St) :
    ∃ d, RunDelta s (handleSingle p env key s).2 d := by
  by_cases h1 : key = "mass"
  · rw [h1, handleSingle_mass]
    exact runDelta_mass p env s
  by_cases h2 : key = "absorbed_energy"
  · rw [h2, handleSingle_absorbed]
    exact ⟨[], runDelta_refl s⟩
  by_cases h3 : key = "intrusion"
  · rw [h3, handleSingle_intrusion]
    exact runDelta_fullStage p env s _ (instrusionCalculation_state p env s)
  by_cases h4 : key = "mean_impact_force"
  · rw [h4, handleSingle_mean]
    exact runDelta_fullStage p env s _ (meanForceCalculation_state p env s)
  by_cases h5 : key = "max_impact_force"
  · rw [h5, handleSingle_peak]
    exact runDelta_fullStage p env s _ (peakForceCalculation_state p env s)
  by_cases h6 : key = "specific_energy_absorbed"
  · rw [h6, handleSingle_sea]
    exact runDelta_mass p env s
  by_cases h7 : key = "load_uniformity"
  · rw [h7, handleSingle_lu]
    obtain ⟨d1, hd1⟩ :=
      runDelta_fullStage p env s _ (peakForceCalculation_state p env s)
    obtain ⟨d2, hd2⟩ := runDelta_fullStage p env (peakForceCalculation p env s).2 _
      (meanForceCalculation_state p env (peakForceCalculation p env s).2)
    exact ⟨d1 ++ d2, runDelta_comp hd1 hd2⟩
  by_cases h8 : key = "penalized_sea"
  · rw [h8, handleSingle_psea]
    obtain ⟨d1, hd1⟩ :=
      runDelta_fullStage p env s _ (instrusionCalculation_state p env s)
    split
    · obtain ⟨d2, hd2⟩ := runDelta_mass p env (instrusionCalculation p env s).2
      exact ⟨d1 ++ d2, runDelta_comp hd1 hd2⟩
    · obtain ⟨d2, hd2⟩ :=
        runDelta_fullStage p env (instrusionCalculation p env s).2 _
          (instrusionCalculation_state p env (instrusionCalculation p env s).2)
      exact ⟨d1 ++ d2, runDelta_comp hd1 hd2⟩
  by_cases h9 : key = "penalized_mass"
  · rw [h9, handleSingle_pmass]
    obtain ⟨d1, hd1⟩ :=
      runDelta_fullStage p env s _ (instrusionCalculation_state p env s)
    split
    · obtain ⟨d2, hd2⟩ := runDelta_mass p env (instrusionCalculation p env s).2
      exact ⟨d1 ++ d2, runDelta_comp hd1 hd2⟩
    · obtain ⟨d2, hd2⟩ :=
        runDelta_fullStage p env (instrusionCalculation p env s).2 _
          (instrusionCalculation_state p env (instrusionCalculation p env s).2)
      exact ⟨d1 ++ d2, runDelta_comp hd1 hd2⟩
  · have hh : handleSingle p env key s = (none, s) := by
      unfold handleSingle
      simp only [if_neg h1, if_neg h2, if_neg h3, if_neg h4, if_neg h5,
        if_neg h6, if_neg h7, if_neg h8, if_neg h9]
    rw [hh]
    exact ⟨[], runDelta_refl s⟩

theorem runDelta_evalKeys (p : Prob) (env : Env) :
    ∀ (keys : List String) (s : St), ∃ d, RunDelta s (evalKeys p env keys s).2 d
  | [], s => ⟨[], runDelta_refl s⟩
  | k :: ks, s => by
    obtain ⟨d1, hd1⟩ := runDelta_handleSingle p env k s
    obtain ⟨d2, hd2⟩ := runDelta_evalKeys p env ks (handleSingle p env k s).2
    exact ⟨d1 ++ d2, runDelta_comp hd1 hd2⟩

theorem runDelta_evalList (p : Prob) (env : Env) (keys : List String) (s : St) :
    ∃ d, RunDelta s (evalList p env keys s).2 d := by
  unfold evalList
  split
  · dsimp only
    obtain ⟨d1, hd1⟩ :=
      runDelta_evalKeys p env (keys.eraseIdx (keys.indexOf "intrusion")) s
    obtain ⟨d2, hd2⟩ := runDelta_fullStage p env
      (evalKeys p env (keys.eraseIdx (keys.indexOf "intrusion")) s).2 _
      (instrusionCalculation_state p env _)
    exact ⟨d1 ++ d2, runDelta_comp hd1 hd2⟩
  · exact runDelta_evalKeys p env keys s

/-- `generate_input_deck` never touches the run log, whatever its outcome. -/
theorem generate_runs (p : Prob) (v : List ℚ) (s : St) :
    (generateInputDeck p v s).1.fs.runs = s.fs.runs := by
  unfold generateInputDeck
  dsimp only
  split_ifs <;> rfl

/-- One `__call__`, on either identity policy and any outcome, appends at most
one starter-stage and at most one full-stage `run_radioss` invocation to the
log. -/
theorem callEvaluate_runs (p : Prob) (env : Env) (v : List ℚ) (pidArg : Int)
    (s : St) :
    ∃ d, (callEvaluate p env v pidArg s).1.fs.runs = s.fs.runs ++ d ∧
      starterRuns d ≤ 1 ∧ fullRuns d ≤ 1 := by
  unfold callEvaluate
  by_cases hguard : p.seq = false ∧ pidArg ≤ 0
  · rw [if_pos hguard]
    exact ⟨[], by simp, by simp [starterRuns], by simp [fullRuns]⟩
  · rw [if_neg hguard]
    dsimp only
    rcases hgen : generateInputDeck p v
      { pid := (if p.seq = true then s else { s with pid := pidArg }).pid,
        status := 0,
        df := (if p.seq = true then s else { s with pid := pidArg }).df,
        fs := (if p.seq = true then s else { s with pid := pidArg }).fs }
      with ⟨sg, r⟩
    have hfs0 :
        ({ pid := (if p.seq = true then s else { s with pid := pidArg }).pid,
           status := 0,
           df := (if p.seq = true then s else { s with pid := pidArg }).df,
           fs := (if p.seq = true then s else { s with pid := pidArg }).fs } : St).fs.runs
          = s.fs.runs := by
      by_cases hp : p.seq = true <;> simp [hp]
    have hrg : sg.fs.runs = s.fs.runs := by
      have hh := generate_runs p v
        { pid := (if p.seq = true then s else { s with pid := pidArg }).pid,
          status := 0,
          df := (if p.seq = true then s else { s with pid := pidArg }).df,
          fs := (if p.seq = true then s else { s with pid := pidArg }).fs }
      rw [hgen] at hh
      rw [hh, hfs0]
    cases r with
    | error e =>
      exact ⟨[], by simpa using hrg, by simp [starterRuns], by simp [fullRuns]⟩
    | ok u =>
      cases hod : p.outputData with
      | single k =>
        obtain ⟨d, hd⟩ := runDelta_handleSingle p env k sg
        obtain ⟨hruns, -, -, -, hsle, -, -, hfle, -⟩ := hd
        exact ⟨d, by simpa [hruns] using by rw [hrg], hsle, hfle⟩
      | many keys =>
        obtain ⟨d, hd⟩ := runDelta_evalList p env keys sg
        obtain ⟨hruns, -, -, -, hsle, -, -, hfle, -⟩ := hd
        exact ⟨d, by simpa [hruns] using by rw [hrg], hsle, hfle⟩

theorem generate_err_size (p : Prob) (v : List ℚ) (s : St)
    (h : v.length ≠ p.dimension) :
    generateInputDeck p v s = ({ s with status := 0 }, .error .sizeMismatch) := by
  unfold generateInputDeck
  rw [if_pos h]

theorem generate_err_range (p : Prob) (v : List ℚ) (s : St)
    (h2 : v.length = p.dimension) (h3 : ∃ x ∈ v, x < -5 ∨ 5 < x) :
    generateInputDeck p v s = ({ s with status := 0 }, .error .outOfRangeInput) := by
  have hany : (v.any fun x => ¬(-5 ≤ x ∧ x ≤ 5)) = true := by
    simp only [List.any_eq_true, decide_eq_true_eq]
    obtain ⟨x, hx, hout⟩ := h3
    exact ⟨x, hx, by push_neg; rcases hout with h | h <;> intro <;> linarith⟩
  unfold generateInputDeck
  rw [if_neg (by simp [h2]), if_pos (by rw [hany])]

/-- Sequential policy, single-`intrusion` request: one accepted evaluation
uses the deck named by the current problem id, creates it if missing, runs the
full stage exactly once on it, and advances the problem id by exactly one. -/
theorem seqIntrusion_step (p : Prob) (env : Env) (v : List ℚ) (pidArg : Int)
    (s : St) (hseq : p.seq = true) (hod : p.outputData = .single "intrusion")
    (h2 : v.length = p.dimension) (h3 : ∀ x ∈ v, -5 ≤ x ∧ x ≤ 5) :
    callEvaluate p env v pidArg s =
      ({ pid := s.pid + 1, status := 2, df := some s.pid,
         fs := { dirs := if s.pid ∈ s.fs.dirs then s.fs.dirs
                   else s.fs.dirs ++ [s.pid],
                 runs := s.fs.runs ++ [(false, s.pid)] } },
        .ok (.scalar (some (env.intrusionRaw s.pid - env.impactorOffset)))) := by
  unfold callEvaluate
  rw [if_neg (by
    rintro ⟨hf, -⟩
    rw [hseq] at hf
    cases hf)]
  simp only [hseq, if_true]
  rw [generate_ok p v { s with status := 0 } h2 h3]
  simp only [hseq, if_true, hod]
  rw [handleSingle_intrusion]
  unfold instrusionCalculation runSimulation loadOutputDataFrame
  simp only [hseq, if_true]
  rw [if_pos (by left; simp)]
  simp only [Int.add_sub_cancel, Option.getD_some]

/-- An invalid design vector (wrong length or out-of-bounds component) makes
`__call__` fail in validation: no deck directory is created and no
`run_radioss` invocation happens. -/
theorem callEvaluate_invalid (p : Prob) (env : Env) (v : List ℚ) (pidArg : Int)
    (s : St) (hpol : p.seq = true ∨ 0 < pidArg)
    (hbad : v.length ≠ p.dimension ∨ ∃ x ∈ v, x < -5 ∨ 5 < x) :
    ∃ e, (callEvaluate p env v pidArg s).1.fs = s.fs ∧
      (callEvaluate p env v pidArg s).2 = .error e ∧
      (e = EvalErr.sizeMismatch ∨ e = EvalErr.outOfRangeInput) := by
  have hguard : ¬(p.seq = false ∧ pidArg ≤ 0) := by
    rintro ⟨hf, hle⟩
    rcases hpol with h | h
    · rw [h] at hf
      cases hf
    · omega
  unfold callEvaluate
  rw [if_neg hguard]
  dsimp only
  set S : St := { pid := (if p.seq = true then s else { s with pid := pidArg }).pid,
                  status := 0,
                  df := (if p.seq = true then s else { s with pid := pidArg }).df,
                  fs := (if p.seq = true then s else { s with pid := pidArg }).fs }
    with hS
  have hfs : S.fs = s.fs := by
    rw [hS]
    by_cases hp : p.seq = true <;> simp [hp]
  by_cases hl : v.length ≠ p.dimension
  · refine ⟨.sizeMismatch, ?_, ?_, Or.inl rfl⟩
    · rw [generate_err_size p v S hl]
      simpa using hfs
    · rw [generate_err_size p v S hl]
  · have hex : ∃ x ∈ v, x < -5 ∨ 5 < x := hbad.resolve_left hl
    have hlen : v.length = p.dimension := by omega
    refine ⟨.outOfRangeInput, ?_, ?_, Or.inr rfl⟩
    · rw [generate_err_range p v S hlen hex]
      simpa using hfs
    · rw [generate_err_range p v S hlen hex]

/-!
## Concrete environments and instances used in counterexamples and witnesses
-/

/-- A trivial external world: every artifact lookup yields `0`. -/
def envZero : Env :=
  { massOut := fun _ => 0, intrusionRaw := fun _ => 0, forcePeak := fun _ => 0,
    forceMean := fun _ => 0, rigidMass := 0, impactorOffset := 0,
    absorbedEnergy := 0 }

/-- An external world whose starter-mass artifact differs between deck 1
(mass 10) and any other deck (mass 20), with absorbed energy 40. -/
def envSplit : Env :=
  { envZero with massOut := fun d => if d = 1 then 10 else 20,
                 absorbedEnergy := 40 }

/-- An external world with intrusion `q`, mass 2 and absorbed energy 6
everywhere. -/
def envIntrusionAt (q : ℚ) : Env :=
  { envZero with massOut := fun _ => 2, intrusionRaw := fun _ => q,
                 absorbedEnergy := 6 }

/-- Explicit-identity instance requesting the single metric `mass`. -/
def probMassExplicit : Prob :=
  { dimension := 1, ranges := [(60, 120)], seq := false,
    outputData := .single "mass" }

/-- Sequential instance requesting `['mass', 'specific_energy_absorbed']`. -/
def probSeqMassSea : Prob :=
  { dimension := 1, ranges := [(60, 120)], seq := true,
    outputData := .many ["mass", "specific_energy_absorbed"] }

/-- Sequential instance requesting the single metric
`specific_energy_absorbed`. -/
def probSeqSea : Prob :=
  { dimension := 1, ranges := [(60, 120)], seq := true,
    outputData := .single "specific_energy_absorbed" }

/-- Sequential instance requesting the single metric `penalized_sea`. -/
def probSeqPsea : Prob :=
  { dimension := 1, ranges := [(60, 120)], seq := true,
    outputData := .single "penalized_sea" }

/-- Sequential instance requesting the single metric `intrusion`. -/
def probSeqIntr : Prob :=
  { dimension := 1, ranges := [(60, 120)], seq := true,
    outputData := .single "intrusion" }

/-!
## Claims
-/

/-- **C1, counterexample.**  Evaluating the same evaluation id twice is *not*
free: with the explicit-identity policy and the single metric `mass` (starter
stage), the first `__call__` on id 1 invokes `run_radioss` once; the second
`__call__` on the same id — whose starter stage is recorded as done
(`sim_status = 1`) at that point — resets `sim_status` to 0 and invokes
`run_radioss` on the starter stage again, so the log holds two invocations
where the claim requires one. -/
theorem C1_counterexample :
    (callEvaluate probMassExplicit envZero [0] 1 (initSt (-1))).1.fs.runs
      = [(true, 1)] ∧
    (callEvaluate probMassExplicit envZero [0] 1
        (callEvaluate probMassExplicit envZero [0] 1 (initSt (-1))).1).1.fs.runs
      = [(true, 1), (true, 1)] ∧
    ([(true, 1), (true, 1)] : List (Bool × Int)) ≠ [(true, 1)] := by
  decide

/-- **C1, amended.**  What does hold: *within* a single `evaluate` call —
either identity policy, any design vector, any metric request (single or
list) — the external stage runner is invoked at most once per stage: the run
log grows by a fragment containing at most one starter-stage and at most one
full-stage `run_radioss` invocation.  Across two calls for the same id the
`sim_status = 0` reset at the top of `__call__` makes the stages run again. -/
theorem C1_amended (p : Prob) (env : Env) (v : List ℚ) (pidArg : Int) (s : St) :
    ∃ d, (callEvaluate p env v pidArg s).1.fs.runs = s.fs.runs ++ d ∧
      starterRuns d ≤ 1 ∧ fullRuns d ≤ 1 :=
  callEvaluate_runs p env v pidArg s

/-- **C2, counterexample.**  Under sequential id numbering the positional value
is *not* the metric's value: with deck-1 mass 10 and deck-2 mass 20
(`envSplit`), requesting `['mass', 'specific_energy_absorbed']` returns
`40 / 20 = 2` at position 1 — the mass is re-extracted after the problem id
has already advanced to the next deck, which this evaluation never created —
while the value of `specific_energy_absorbed` (its single-request result from
the same initial state) is `40 / 10 = 4`. -/
theorem C2_counterexample :
    (callEvaluate probSeqMassSea envSplit [0] (-1) (initSt 1)).2
      = .ok (.listOut [some 10, some 2]) ∧
    (callEvaluate probSeqSea envSplit [0] (-1) (initSt 1)).2
      = .ok (.scalar (some 4)) ∧
    ((2 : ℚ) ≠ 4) := by
  refine ⟨?_, ?_, by norm_num⟩ <;>
  · simp only [callEvaluate, generateInputDeck, evalKeys, evalList, handleSingle,
      massCalculation, instrusionCalculation, peakForceCalculation,
      meanForceCalculation, absorbedEnergyCalculation, runSimulation,
      loadOutputDataFrame, probSeqMassSea, probSeqSea, envSplit, envZero, initSt]
    norm_num
    all_goals simp [List.indexOf, List.findIdx, List.findIdx.go]
    all_goals norm_num

/-- **C2, amended.**  Under the explicit-identity policy the claim holds in
full: for *every* list of metric names (an `intrusion` entry is popped,
computed last and reinserted at its original position), the result is exactly
the positional image of the request under the per-deck metric value — same
length, position `i` holding the value of the metric named at position `i`. -/
theorem C2_amended (env : Env) (keys : List String) (d : Nat)
    (R : List (ℚ × ℚ)) (v : List ℚ) (pidArg : Int) (s : St)
    (h1 : 0 < pidArg) (h2 : v.length = d) (h3 : ∀ x ∈ v, -5 ≤ x ∧ x ≤ 5) :
    (callEvaluate
        { dimension := d, ranges := R, seq := false, outputData := .many keys }
        env v pidArg s).2
      = .ok (.listOut (keys.map (metricValue env pidArg))) :=
  callEvaluate_explicit_many _ env v pidArg s keys rfl rfl h1 h2 h3

theorem C2_amended_witness :
    0 < (1 : Int) ∧ ([0] : List ℚ).length = 1 ∧
    (∀ x ∈ ([0] : List ℚ), -5 ≤ x ∧ x ≤ 5) ∧
    (callEvaluate
        { dimension := 1, ranges := [(60, 120)], seq := false,
          outputData := .many ["intrusion", "mass", "load_uniformity"] }
        envZero [0] 1 (initSt (-1))).2
      = .ok (.listOut (["intrusion", "mass", "load_uniformity"].map
          (metricValue envZero 1))) :=
  ⟨by norm_num, by norm_num, by norm_num,
    C2_amended envZero ["intrusion", "mass", "load_uniformity"] 1 [(60, 120)]
      [0] 1 (initSt (-1)) (by norm_num) (by norm_num) (by norm_num)⟩

/-- **C3 (confirmed).**  The normalized-to-physical encoding is the affine map
`physical = lower + (normalized - (-5)) * (upper - lower) / 10` for every
slot; for the range `(60, 120)` it maps `0 ↦ 90`, `-5 ↦ 60`, `5 ↦ 120`
exactly; and the StarBox dimension-5 encoding of `[-5, -5, -5, -5, -5]` is
exactly the five lower bounds `[60, 60, 0, 0, 0.7]`. -/
theorem C3_affine_encoding :
    (∀ x lo hi : ℚ,
      linearMapingVariable x (lo, hi) = lo + (x - (-5)) * (hi - lo) / 10) ∧
    linearMapingVariable 0 (60, 120) = 90 ∧
    linearMapingVariable (-5) (60, 120) = 60 ∧
    linearMapingVariable 5 (60, 120) = 120 ∧
    starBoxRanges 5 = [(60, 120), (60, 120), (0, 30), (0, 30), (0.7, 3)] ∧
    femSpaceVariableArray [-5, -5, -5, -5, -5] (starBoxRanges 5)
      = [60, 60, 0, 0, 0.7] := by
  refine ⟨?_, ?_, ?_, ?_, by rfl, ?_⟩ <;>
    first
    | (intro x lo hi
       unfold linearMapingVariable searchSpace
       ring)
    | norm_num [femSpaceVariableArray, linearMapingVariable, searchSpace,
        starBoxRanges]

/-- **C4 (confirmed).**  `penalized_sea` equals `-(absorbed_energy / mass)`
whenever `intrusion <= 60` (the boundary `intrusion = 60` included), and
`100 * (intrusion - 60)` whenever `intrusion > 60`, the primitive metrics
being the per-deck values of the evaluation (stated under the
explicit-identity policy, where every primitive is read consistently from the
single deck `pidArg`; under sequential numbering the mass re-extraction
happens after the id has advanced, so "the primitive metrics are defined"
fails there — see C2/C9). -/
theorem C4_penalized_sea (env : Env) (d : Nat) (R : List (ℚ × ℚ)) (v : List ℚ)
    (pidArg : Int) (s : St) (h1 : 0 < pidArg) (h2 : v.length = d)
    (h3 : ∀ x ∈ v, -5 ≤ x ∧ x ≤ 5) :
    (callEvaluate
        { dimension := d, ranges := R, seq := false,
          outputData := .single "penalized_sea" }
        env v pidArg s).2
      = .ok (.scalar (some
          (if env.intrusionRaw pidArg - env.impactorOffset ≤ 60 then
            -(env.absorbedEnergy / (env.massOut pidArg - env.rigidMass))
          else
            100 * (env.intrusionRaw pidArg - env.impactorOffset - 60)))) := by
  rw [callEvaluate_explicit_single _ env v pidArg s "penalized_sea" rfl rfl
    h1 h2 h3, metricValue_psea]
  split
  · rfl
  · have hq : -(-100 * (env.intrusionRaw pidArg - env.impactorOffset - 60))
        = 100 * (env.intrusionRaw pidArg - env.impactorOffset - 60) := by ring
    rw [hq]

theorem C4_penalized_sea_witness :
    (0 < (1 : Int) ∧ ([0] : List ℚ).length = 1 ∧
      (∀ x ∈ ([0] : List ℚ), -5 ≤ x ∧ x ≤ 5)) ∧
    (callEvaluate
        { dimension := 1, ranges := [(60, 120)], seq := false,
          outputData := .single "penalized_sea" }
        (envIntrusionAt 60) [0] 1 (initSt (-1))).2
      = .ok (.scalar (some
          (if (envIntrusionAt 60).intrusionRaw 1 -
              (envIntrusionAt 60).impactorOffset ≤ 60 then
            -((envIntrusionAt 60).absorbedEnergy /
              ((envIntrusionAt 60).massOut 1 - (envIntrusionAt 60).rigidMass))
          else
            100 * ((envIntrusionAt 60).intrusionRaw 1 -
              (envIntrusionAt 60).impactorOffset - 60)))) ∧
    (callEvaluate
        { dimension := 1, ranges := [(60, 120)], seq := false,
          outputData := .single "penalized_sea" }
        (envIntrusionAt (601 / 10)) [0] 1 (initSt (-1))).2
      = .ok (.scalar (some
          (if (envIntrusionAt (601 / 10)).intrusionRaw 1 -
              (envIntrusionAt (601 / 10)).impactorOffset ≤ 60 then
            -((envIntrusionAt (601 / 10)).absorbedEnergy /
              ((envIntrusionAt (601 / 10)).massOut 1 -
                (envIntrusionAt (601 / 10)).rigidMass))
          else
            100 * ((envIntrusionAt (601 / 10)).intrusionRaw 1 -
              (envIntrusionAt (601 / 10)).impactorOffset - 60)))) :=
  ⟨⟨by norm_num, by norm_num, by norm_num⟩,
    C4_penalized_sea (envIntrusionAt 60) 1 [(60, 120)] [0] 1 (initSt (-1))
      (by norm_num) (by norm_num) (by norm_num),
    C4_penalized_sea (envIntrusionAt (601 / 10)) 1 [(60, 120)] [0] 1
      (initSt (-1)) (by norm_num) (by norm_num) (by norm_num)⟩

/-- **C5 (confirmed).**  For every problem family, constructing an instance
whose requested metric (single name, or any element of a requested list) lies
in the family's forbidden set fails with the forbidden-metric `ValueError`
raised by the subclass `__init__` before anything else happens: the
filesystem log (and the family counter) are returned unchanged, so no
workspace directory is created. -/
theorem C5_forbidden_metric (f : Family) (dim : Nat) (out : OutputReq)
    (seq : Bool) (ctr : Nat) (fs : FsState)
    (hforb : match out with
      | .single n => n ∈ forbiddenOf f
      | .many l => ∃ n ∈ l, n ∈ forbiddenOf f) :
    constructProblem f dim (some out) seq ctr fs
      = ((fs, ctr), .error .forbiddenMetric) := by
  have hb : hitsForbidden f (some out) = true := by
    cases out with
    | single n => simpa [hitsForbidden] using hforb
    | many l => simpa [hitsForbidden] using hforb
  unfold constructProblem
  rw [if_pos hb]

theorem C5_forbidden_metric_witness :
    ("penalized_mass" ∈ forbiddenOf Family.starBox) ∧
    constructProblem .starBox 5 (some (.single "penalized_mass")) true 1
        { dirs := [], runs := [] }
      = (({ dirs := [], runs := [] }, 1), .error .forbiddenMetric) :=
  ⟨by decide,
    C5_forbidden_metric .starBox 5 (.single "penalized_mass") true 1
      { dirs := [], runs := [] } (by decide)⟩

/-- **C6 (confirmed).**  Requesting an unsupported dimensionality fails at
problem construction with no filesystem or solver side effect: dimension 0 is
rejected by the `dimension` setter for every family, and a dimension above
40 — the largest key of `ThreePointBending`'s `variable_ranges_map` — raises
the `KeyError` of the missing table entry.  (`StarBox` and `CrashTube`
declare no maximum: their ranges tables extend to any positive dimension.) -/
theorem C6_dimension_bounds :
    (∀ (f : Family) (seq : Bool) (ctr : Nat) (fs : FsState),
      constructProblem f 0 none seq ctr fs
        = ((fs, ctr), .error .nonPositiveDimension)) ∧
    (∀ (d : Nat) (seq : Bool) (ctr : Nat) (fs : FsState), 40 < d →
      constructProblem .threePointBending d none seq ctr fs
        = ((fs, ctr), .error .unsupportedDimension)) := by
  constructor
  · intro f seq ctr fs
    unfold constructProblem
    rw [if_neg (by simp [hitsForbidden]), if_pos rfl]
  · intro d seq ctr fs hd
    unfold constructProblem
    rw [if_neg (by simp [hitsForbidden]), if_neg (by omega)]
    have hset : setOutputData ((none : Option OutputReq).getD
        (.single (defaultOutputOf .threePointBending)))
        = .ok (.single "penalized_mass") := by rfl
    simp only [hset]
    rw [if_pos ⟨trivial, hd⟩]

theorem C6_dimension_bounds_witness :
    constructProblem .starBox 0 none true 1 { dirs := [], runs := [] }
      = (({ dirs := [], runs := [] }, 1), .error .nonPositiveDimension) ∧
    (40 < 41) ∧
    constructProblem .threePointBending 41 none true 1 { dirs := [], runs := [] }
      = (({ dirs := [], runs := [] }, 1), .error .unsupportedDimension) :=
  ⟨C6_dimension_bounds.1 .starBox true 1 { dirs := [], runs := [] },
    by norm_num,
    C6_dimension_bounds.2 41 true 1 { dirs := [], runs := [] } (by norm_num)⟩

/-- **C7, counterexample.**  An unrecognized name in a multi-metric request is
*not* answered with a NaN at its position: the `output_data` setter removes it
at construction.  Constructing a StarBox over
`['mass', 'bogus', 'intrusion']` stores `['mass', 'intrusion']`, and the
evaluation returns a 2-element list — not the 3-element list with a NaN at
position 1 that the claim requires. -/
theorem C7_counterexample :
    (constructProblem .starBox 1 (some (.many ["mass", "bogus", "intrusion"]))
        false 1 { dirs := [], runs := [] }).2
      = .ok ({ dimension := 1, ranges := starBoxRanges 1, seq := false,
               outputData := .many ["mass", "intrusion"] }, -1) ∧
    (callEvaluate
        { dimension := 1, ranges := starBoxRanges 1, seq := false,
          outputData := .many ["mass", "intrusion"] }
        envZero [0] 1 (initSt (-1))).2
      = .ok (.listOut [some 0, some 0]) ∧
    ([some (0 : ℚ), some 0] : List (Option ℚ)).length
      ≠ (["mass", "bogus", "intrusion"] : List String).length := by
  refine ⟨by rfl, ?_, by norm_num⟩
  simp only [callEvaluate, generateInputDeck, evalKeys, evalList, handleSingle,
    massCalculation, instrusionCalculation, peakForceCalculation,
    meanForceCalculation, absorbedEnergyCalculation, runSimulation,
    loadOutputDataFrame, envZero, initSt]
  norm_num
  all_goals simp [List.indexOf, List.findIdx, List.findIdx.go]
  all_goals norm_num

/-- **C7, amended.**  What does hold: unrecognized names in a requested list
are tolerated by *removal* at construction time (the `output_data` setter
filters the list, popping the collected indices in ascending order, with
index shifting when several names are removed), and the evaluation then
proceeds without raising over the filtered list, returning (explicit policy)
one value per surviving name in order; the NaN sentinel arises only for a key
that reaches `handle_single` without an entry in its table. -/
theorem C7_amended (env : Env) (L : List String) (d : Nat) (v : List ℚ)
    (pidArg : Int) (s : St) (fs : FsState) (ctr : Nat)
    (hnf : ¬∃ n ∈ L, n ∈ forbiddenOf Family.starBox) (hd : d ≠ 0)
    (h1 : 0 < pidArg) (h2 : v.length = d) (h3 : ∀ x ∈ v, -5 ≤ x ∧ x ≤ 5) :
    (constructProblem .starBox d (some (.many L)) false ctr fs).2
      = .ok ({ dimension := d, ranges := starBoxRanges d, seq := false,
               outputData := .many (setOutputDataList L) }, -1) ∧
    (callEvaluate
        { dimension := d, ranges := starBoxRanges d, seq := false,
          outputData := .many (setOutputDataList L) }
        env v pidArg s).2
      = .ok (.listOut ((setOutputDataList L).map (metricValue env pidArg))) := by
  constructor
  · unfold constructProblem
    rw [if_neg (by simpa [hitsForbidden] using hnf), if_neg hd]
    rfl
  · exact callEvaluate_explicit_many _ env v pidArg s _ rfl rfl h1 h2 h3

theorem C7_amended_witness :
    (¬∃ n ∈ (["mass", "bogus", "intrusion"] : List String),
        n ∈ forbiddenOf Family.starBox) ∧ (1 : Nat) ≠ 0 ∧ 0 < (1 : Int) ∧
    ([0] : List ℚ).length = 1 ∧ (∀ x ∈ ([0] : List ℚ), -5 ≤ x ∧ x ≤ 5) ∧
    ((constructProblem .starBox 1
        (some (.many ["mass", "bogus", "intrusion"])) false 1
        { dirs := [], runs := [] }).2
      = .ok ({ dimension := 1, ranges := starBoxRanges 1, seq := false,
               outputData :=
                 .many (setOutputDataList ["mass", "bogus", "intrusion"]) },
          -1) ∧
    (callEvaluate
        { dimension := 1, ranges := starBoxRanges 1, seq := false,
          outputData := .many (setOutputDataList ["mass", "bogus", "intrusion"]) }
        envZero [0] 1 (initSt (-1))).2
      = .ok (.listOut ((setOutputDataList ["mass", "bogus", "intrusion"]).map
          (metricValue envZero 1)))) :=
  ⟨by decide, by decide, by decide, by decide, by norm_num,
    C7_amended envZero ["mass", "bogus", "intrusion"] 1 [0] 1 (initSt (-1))
      { dirs := [], runs := [] } 1 (by decide) (by decide) (by decide)
      (by decide) (by norm_num)⟩

/-- **C8 (confirmed).**  A design vector of the wrong length, or with a
component outside `[-5, 5]`, makes `__call__` fail inside
`_validate_variable_array` — before `os.makedirs` and before any
`run_radioss` invocation: the filesystem log of the returned state equals the
input log.  (Stated for calls whose identity argument is itself admissible:
under the explicit policy the `problem_id` setter runs first.) -/
theorem C8_out_of_range_input (p : Prob) (env : Env) (v : List ℚ)
    (pidArg : Int) (s : St) (hpol : p.seq = true ∨ 0 < pidArg)
    (hbad : v.length ≠ p.dimension ∨ ∃ x ∈ v, x < -5 ∨ 5 < x) :
    ∃ e, (callEvaluate p env v pidArg s).1.fs = s.fs ∧
      (callEvaluate p env v pidArg s).2 = .error e ∧
      (e = EvalErr.sizeMismatch ∨ e = EvalErr.outOfRangeInput) :=
  callEvaluate_invalid p env v pidArg s hpol hbad

theorem C8_out_of_range_input_witness :
    (probMassExplicit.seq = true ∨ 0 < (1 : Int)) ∧
    (([0, 6] : List ℚ).length ≠ probMassExplicit.dimension ∨
      ∃ x ∈ ([0, 6] : List ℚ), x < -5 ∨ 5 < x) ∧
    (∃ e, (callEvaluate probMassExplicit envZero [0, 6] 1 (initSt (-1))).1.fs
        = (initSt (-1)).fs ∧
      (callEvaluate probMassExplicit envZero [0, 6] 1 (initSt (-1))).2
        = .error e ∧
      (e = EvalErr.sizeMismatch ∨ e = EvalErr.outOfRangeInput)) :=
  ⟨Or.inr (by norm_num), Or.inl (by norm_num [probMassExplicit]),
    C8_out_of_range_input probMassExplicit envZero [0, 6] 1 (initSt (-1))
      (Or.inr (by norm_num)) (Or.inl (by norm_num [probMassExplicit]))⟩

/-- **C9, counterexample.**  Sequential ids are *not* consecutive: with the
single metric `penalized_sea` (intrusion `0 <= 60`, so the mass branch runs),
`mass_calculation` executes after the full run with `sim_status = 2`, skips
the starter (and its id decrement) but still increments the id — so one
accepted evaluation advances the id by 2.  Starting from id 1, the first two
evaluations create decks 1 and 3, not 1 and 2. -/
theorem C9_counterexample :
    (callEvaluate probSeqPsea envZero [0] (-1)
        (callEvaluate probSeqPsea envZero [0] (-1) (initSt 1)).1).1.fs.dirs
      = [1, 3] ∧
    ([1, 3] : List Int) ≠ [1, 2] := by
  refine ⟨?_, by decide⟩
  simp only [callEvaluate, generateInputDeck, evalKeys, evalList, handleSingle,
    massCalculation, instrusionCalculation, peakForceCalculation,
    meanForceCalculation, absorbedEnergyCalculation, runSimulation,
    loadOutputDataFrame, probSeqPsea, envZero, initSt]
  norm_num
  all_goals simp [List.indexOf, List.findIdx, List.findIdx.go]
  all_goals norm_num

/-- **C9, amended.**  What does hold of the id lifecycle: the class-level
counter starts at 1 (so the *first* instance's first evaluation uses deck 1),
and for a sequential instance requesting the single full-stage primitive
`intrusion`, each accepted evaluation uses the deck named by the current id,
creates it if missing, runs the full stage exactly once on it, and advances
the id by exactly one — so such evaluations use consecutive ids from the
instance's starting value.  (The counter is shared across instances of a
family rather than reset at instance construction, and metrics that
re-extract mass after the full run advance the id by 2 — see the
counterexample.) -/
theorem C9_amended (p : Prob) (env : Env) (v : List ℚ) (pidArg : Int) (s : St)
    (hseq : p.seq = true) (hod : p.outputData = .single "intrusion")
    (h2 : v.length = p.dimension) (h3 : ∀ x ∈ v, -5 ≤ x ∧ x ≤ 5) :
    callEvaluate p env v pidArg s =
      ({ pid := s.pid + 1, status := 2, df := some s.pid,
         fs := { dirs := if s.pid ∈ s.fs.dirs then s.fs.dirs
                   else s.fs.dirs ++ [s.pid],
                 runs := s.fs.runs ++ [(false, s.pid)] } },
        .ok (.scalar (some (env.intrusionRaw s.pid - env.impactorOffset)))) :=
  seqIntrusion_step p env v pidArg s hseq hod h2 h3

theorem C9_amended_witness :
    (probSeqIntr.seq = true ∧ probSeqIntr.outputData = .single "intrusion" ∧
      ([0] : List ℚ).length = probSeqIntr.dimension ∧
      (∀ x ∈ ([0] : List ℚ), -5 ≤ x ∧ x ≤ 5)) ∧
    callEvaluate probSeqIntr envZero [0] (-1) (initSt 1) =
      ({ pid := (initSt 1).pid + 1, status := 2, df := some (initSt 1).pid,
         fs := { dirs := if (initSt 1).pid ∈ (initSt 1).fs.dirs
                   then (initSt 1).fs.dirs
                   else (initSt 1).fs.dirs ++ [(initSt 1).pid],
                 runs := (initSt 1).fs.runs ++ [(false, (initSt 1).pid)] } },
        .ok (.scalar (some (envZero.intrusionRaw (initSt 1).pid -
          envZero.impactorOffset)))) :=
  ⟨⟨rfl, rfl, by decide, by norm_num⟩,
    C9_amended probSeqIntr envZero [0] (-1) (initSt 1) rfl rfl (by decide)
      (by norm_num)⟩

/-- **C10 (confirmed).**  When no line of the starter output file contains the
marker `'TOTAL MASS AND MASS CENTER'`, `extract_mass_from_file` *returns* the
`ValueError("Mass value output failed!")` exception object as its value
instead of raising it; the caller `mass_calculation` therefore performs
`extract_mass_from_file() - rigid_mass` on an exception object rather than a
float, which in Python raises `TypeError` at the subtraction. -/
theorem C10_mass_error_object (parseFloat : String → Option ℚ)
    (lines : List String) (rigid : ℚ)
    (h : ∀ l ∈ lines, containsMarker l = false) :
    extractMassFromFile parseFloat lines
      = .errorObject "Mass value output failed!" ∧
    massCalcSubtract (extractMassFromFile parseFloat lines) rigid
      = .typeErrorOnExceptionObject "Mass value output failed!" := by
  have hnone : lines.findIdx? containsMarker = none := by
    rw [List.findIdx?_eq_none_iff]
    intro x hx
    simpa using h x hx
  refine ⟨?_, ?_⟩ <;> simp [extractMassFromFile, hnone, massCalcSubtract]

theorem C10_mass_error_object_witness :
    (∀ l ∈ (["RUN TERMINATED", "ENERGY 1.5 2.5"] : List String),
      containsMarker l = false) ∧
    extractMassFromFile (fun _ => none) ["RUN TERMINATED", "ENERGY 1.5 2.5"]
      = .errorObject "Mass value output failed!" ∧
    massCalcSubtract
        (extractMassFromFile (fun _ => none) ["RUN TERMINATED", "ENERGY 1.5 2.5"])
        0
      = .typeErrorOnExceptionObject "Mass value output failed!" :=
  ⟨by decide,
    C10_mass_error_object (fun _ => none) ["RUN TERMINATED", "ENERGY 1.5 2.5"]
      0 (by decide)⟩
